import Mathlib

/-!
Verification of the Pharma-Platform order/prescription state-machine and
validation layer.

Shallow embedding of:
  * `apps/prescriptions/models.py` (`Prescription.clean`)
  * `apps/orders/models.py` (`Order.clean`, `OrderItem.subtotal`)
  * `apps/prescriptions/validators.py` (file validation pipeline)
  * `apps/prescriptions/utils.py` (filename sanitisation and path generation)

Django `TextChoices` values become inductives; `clean` methods become pure
functions from a record plus the previously persisted status (the `self.pk`
lookup) to a record of per-field errors; raising `ValidationError(errors)`
corresponds to the error record being non-empty.  Python strings are Lean
`String`s where only blankness/length matter and `List Char` where the
path-generation proofs need structural reasoning.
-/

/-- Whitespace set used by Python's `str.strip()` / truthiness checks
(ASCII part; the code only ever strips ASCII whitespace). -/
def pyIsSpace (c : Char) : Bool :=
  c = ' ' || c = '\t' || c = '\n' || c = '\r' || c = '\x0b' || c = '\x0c'

/-- Python `not s or not s.strip()`: the string is empty or whitespace-only. -/
def pyBlank (s : String) : Bool :=
  s.toList.all pyIsSpace

/-! ## Prescription model (`apps/prescriptions/models.py`) -/

/-- `PrescriptionStatus` text choices. -/
inductive PrescriptionStatus where
  | pending_verification
  | verified
  | rejected
deriving DecidableEq, Repr

/-- The distinct validation failures `Prescription.clean` can record.
`invalidTransition` carries the old and new status, matching the message
"Cannot transition from {old} back to {new}". -/
inductive PrescErr where
  | missingImagePath
  | imagePathTooLong (len : Nat)
  | missingRejectionReason
  | unexpectedRejectionReason
  | invalidTransition (src tgt : PrescriptionStatus)
deriving DecidableEq, Repr

/-- The `errors` dict built by `Prescription.clean`, one slot per field key
that the method can populate. -/
structure PrescCleanErrors where
  prescription_image_path : Option PrescErr
  rejection_reason : Option PrescErr
  status : Option PrescErr
deriving DecidableEq, Repr

/-- Empty error dict: `clean` does not raise. -/
def PrescCleanErrors.clear : PrescCleanErrors := ⟨none, none, none⟩

/-- The fields of a `Prescription` record that `clean` can read.
`verifier` / `verified_at` model the nullable foreign key and timestamp
(as opaque ids); `clean` never inspects them. -/
structure Prescription where
  prescription_image_path : String
  status : PrescriptionStatus
  verifier : Option Nat
  verified_at : Option Nat
  rejection_reason : String
deriving DecidableEq, Repr

/-- `Prescription.clean` (models.py lines 94-142).  `old` is the status of
the previously persisted row (`Prescription.objects.get(pk=self.pk)`);
`none` models a fresh instance (no `pk`, or `DoesNotExist`). -/
def Prescription.clean (p : Prescription) (old : Option PrescriptionStatus) :
    PrescCleanErrors :=
  let e1 : Option PrescErr :=
    if p.prescription_image_path.isEmpty then
      some .missingImagePath
    else if p.prescription_image_path.length > 500 then
      some (.imagePathTooLong p.prescription_image_path.length)
    else none
  let e2 : Option PrescErr :=
    if p.status = .rejected then
      if pyBlank p.rejection_reason then some .missingRejectionReason else none
    else
      if ¬ pyBlank p.rejection_reason then some .unexpectedRejectionReason else none
  let e3 : Option PrescErr :=
    match old with
    | some o =>
      if o = .rejected ∧ p.status = .pending_verification then
        some (.invalidTransition o p.status)
      else if o = .verified ∧ p.status = .pending_verification then
        some (.invalidTransition o p.status)
      else none
    | none => none
  ⟨e1, e2, e3⟩

/-- `full_clean` on the modelled fields succeeds: the error dict is empty. -/
def Prescription.validOn (p : Prescription) (old : Option PrescriptionStatus) : Bool :=
  p.clean old = PrescCleanErrors.clear

/-- The image-path field checks of `Prescription.clean` pass. -/
def Prescription.imageOk (p : Prescription) : Bool :=
  !p.prescription_image_path.isEmpty && p.prescription_image_path.length ≤ 500

/-! ## Order model (`apps/orders/models.py`) -/

/-- `OrderStatus` text choices. -/
inductive OrderStatus where
  | placed
  | confirmed
  | shipped
  | delivered
deriving DecidableEq, Repr

/-- The distinct validation failures `Order.clean` can record. -/
inductive OrderErr where
  | prescriptionNotVerified
  | invalidTransition (src tgt : OrderStatus)
  | missingTrackingNumber
deriving DecidableEq, Repr

/-- The `errors` dict built by `Order.clean`. -/
structure OrderCleanErrors where
  prescription : Option OrderErr
  status : Option OrderErr
  tracking_number : Option OrderErr
deriving DecidableEq, Repr

/-- Empty error dict. -/
def OrderCleanErrors.clear : OrderCleanErrors := ⟨none, none, none⟩

/-- The fields of an `Order` record read by validation.
`prescription_status` is the status of the referenced prescription
(`self.prescription.status`); `none` models `prescription_id` unset.
`total_amount` is in cents (the `DecimalField` has `decimal_places=2`). -/
structure Order where
  prescription_status : Option PrescriptionStatus
  total_amount : Int
  status : OrderStatus
  tracking_number : String
deriving DecidableEq, Repr

/-- The `valid_transitions` dict of `Order.clean` (lines 132-137). -/
def orderValidTargets : OrderStatus → List OrderStatus
  | .placed => [.confirmed]
  | .confirmed => [.shipped]
  | .shipped => [.delivered]
  | .delivered => []

/-- `Order.clean` (models.py lines 105-155).  `old` is the status of the
previously persisted row; `none` models a fresh instance. -/
def Order.clean (o : Order) (old : Option OrderStatus) : OrderCleanErrors :=
  let e1 : Option OrderErr :=
    match o.prescription_status with
    | some s => if s ≠ .verified then some .prescriptionNotVerified else none
    | none => none
  let e2 : Option OrderErr :=
    match old with
    | some oldStatus =>
      if oldStatus ≠ o.status then
        if ¬ o.status ∈ orderValidTargets oldStatus then
          some (.invalidTransition oldStatus o.status)
        else none
      else none
    | none => none
  let e3 : Option OrderErr :=
    if o.status = .shipped ∨ o.status = .delivered then
      if pyBlank o.tracking_number then some .missingTrackingNumber else none
    else none
  ⟨e1, e2, e3⟩

/-- `full_clean` on the modelled fields: the field validator
`MinValueValidator(Decimal('0.01'))` on `total_amount` plus the business
rules of `clean`. -/
def Order.validOn (o : Order) (old : Option OrderStatus) : Bool :=
  1 ≤ o.total_amount && o.clean old = OrderCleanErrors.clear

/-! ## OrderItem (`apps/orders/models.py` lines 162-237) -/

/-- A value of Django's `DecimalField(decimal_places=2)`: an exact decimal
with two fractional digits, stored as an integer count of hundredths. -/
structure Dec2 where
  cents : Int
deriving DecidableEq, Repr

/-- The rational value denoted by a two-place decimal. -/
def Dec2.toRat (d : Dec2) : ℚ := (d.cents : ℚ) / 100

/-- The fields of an `OrderItem` read by `subtotal`.  Note the model has no
stored subtotal column: `subtotal` below is a derived value. -/
structure OrderItem where
  quantity : Nat
  unit_price : Dec2
deriving DecidableEq, Repr

/-- `OrderItem.subtotal` (`@property`, lines 210-213): Python
`self.quantity * self.unit_price` where `unit_price` is a `Decimal`;
integer-times-decimal multiplication is exact. -/
def OrderItem.subtotal (it : OrderItem) : Dec2 :=
  ⟨(it.quantity : Int) * it.unit_price.cents⟩

/-! ## File validation (`apps/prescriptions/validators.py`)

An uploaded file is modelled by its name, its bytes, and the behaviour of
the two external libraries the validators call: `magic.from_buffer`
(`sniffedMime`, `none` when the call raises) and PIL's
`Image.open`/`verify`/`load` (`pilVerifyOk`/`pilLoadOk`, with
`pilVerifyPos`/`pilLoadPos` the stream position the decoder has reached
when the corresponding phase finishes or raises, counted from the start of
the stream).  Each validator maps a stream position to either `.ok` with
the exit position or `.error` carrying the error kind and the position at
which the exception leaves the stream. -/

/-- Python `os.path.splitext`: the index of the last `c` in `l`, if any. -/
def lastIdxOf (c : Char) : List Char → Option Nat
  | [] => none
  | x :: xs =>
    match lastIdxOf c xs with
    | some i => some (i + 1)
    | none => if x = c then some 0 else none

/-- `os.path.splitext` (posix): split at the last dot that lies after the
last `/` and is preceded (within the basename) by at least one non-dot
character; otherwise the extension is empty. -/
def pySplitext (p : List Char) : List Char × List Char :=
  match lastIdxOf '.' p with
  | none => (p, [])
  | some dotIdx =>
    let sepIdx : Int := match lastIdxOf '/' p with | some i => (i : Int) | none => -1
    if sepIdx < (dotIdx : Int) then
      let mid := (p.drop (sepIdx + 1).toNat).take ((dotIdx : Int) - sepIdx - 1).toNat
      if mid.any (fun c => c ≠ '.') then (p.take dotIdx, p.drop dotIdx)
      else (p, [])
    else (p, [])

/-- `_, ext = os.path.splitext(filename); ext = ext.lower()`. -/
def pyExtOf (name : List Char) : List Char :=
  ((pySplitext name).2).map Char.toLower

/-- `settings.ALLOWED_PRESCRIPTION_EXTENSIONS` (config/settings/base.py). -/
def allowedExtensions : List (List Char) :=
  [".jpg".toList, ".jpeg".toList, ".png".toList, ".pdf".toList]

/-- `settings.ALLOWED_PRESCRIPTION_MIME_TYPES` (config/settings/base.py). -/
def allowedMimeTypes : List (List Char) :=
  ["image/jpeg".toList, "image/png".toList, "application/pdf".toList]

/-- `settings.FILE_UPLOAD_MAX_MEMORY_SIZE` default: 10 MiB in bytes. -/
def maxUploadBytes : Nat := 10 * 1024 * 1024

/-- Error kinds of the file validators, one per distinct `ValidationError`
raise site (spec taxonomy names where they exist). -/
inductive FileErr where
  | emptyFile
  | fileTooLarge
  | missingFilename
  | missingExtension
  | disallowedExtension
  | unknownMime
  | disallowedMimeType
  | mimeTypeSpoofing
  | corruptImage
  | corruptPdf
deriving DecidableEq, Repr

/-- The inputs of the validators: file name, bytes, and the modelled
responses of the external `magic` and PIL libraries. -/
structure UploadedFile where
  name : List Char
  content : List Nat
  sniffedMime : Option (List Char)
  pilVerifyOk : Bool
  pilVerifyPos : Nat
  pilLoadOk : Bool
  pilLoadPos : Nat
deriving DecidableEq, Repr

/-- `validate_file_size` (validators.py lines 18-45): reads only
`file.size`, never moves the stream. -/
def validate_file_size (f : UploadedFile) (pos : Nat) : Except (FileErr × Nat) Nat :=
  if f.content.length = 0 then .error (.emptyFile, pos)
  else if f.content.length > maxUploadBytes then .error (.fileTooLarge, pos)
  else .ok pos

/-- `validate_file_extension` (validators.py lines 48-81): reads only
`file.name`, never moves the stream. -/
def validate_file_extension (f : UploadedFile) (pos : Nat) : Except (FileErr × Nat) Nat :=
  if f.name = [] then .error (.missingFilename, pos)
  else if pyExtOf f.name = [] then .error (.missingExtension, pos)
  else if ¬ pyExtOf f.name ∈ allowedExtensions then .error (.disallowedExtension, pos)
  else .ok pos

/-- The `extension_mime_map` dict of `validate_mime_type` (lines 122-127). -/
def extensionMimeMap (ext : List Char) : Option (List Char) :=
  if ext = ".jpg".toList ∨ ext = ".jpeg".toList then some "image/jpeg".toList
  else if ext = ".png".toList then some "image/png".toList
  else if ext = ".pdf".toList then some "application/pdf".toList
  else none

/-- `validate_mime_type` (validators.py lines 84-138): does
`seek(0); read(2048); seek(0)` before any check, so every exit — success,
`unknownMime`, `disallowedMimeType`, `mimeTypeSpoofing` — leaves the
stream at position 0. -/
def validate_mime_type (f : UploadedFile) (_pos : Nat) : Except (FileErr × Nat) Nat :=
  match f.sniffedMime with
  | none => .error (.unknownMime, 0)
  | some mime =>
    if ¬ mime ∈ allowedMimeTypes then .error (.disallowedMimeType, 0)
    else
      match extensionMimeMap (pyExtOf (f.name.map Char.toLower)) with
      | some expected =>
        if mime ≠ expected then .error (.mimeTypeSpoofing, 0) else .ok 0
      | none => .ok 0

/-- The `%PDF-` magic header bytes. -/
def pdfMagic : List Nat := [0x25, 0x50, 0x44, 0x46, 0x2D]

/-- `validate_file_integrity` (validators.py lines 141-185).  The image
branch raises from inside PIL without any subsequent `seek(0)`, so a
corrupt image leaves the stream at whatever position the decoder reached;
the PDF branch and the success path re-seek to 0. -/
def validate_file_integrity (f : UploadedFile) (_pos : Nat) : Except (FileErr × Nat) Nat :=
  if ".jpg".toList.isSuffixOf (f.name.map Char.toLower)
      ∨ ".jpeg".toList.isSuffixOf (f.name.map Char.toLower)
      ∨ ".png".toList.isSuffixOf (f.name.map Char.toLower) then
    if f.pilVerifyOk then
      if f.pilLoadOk then .ok 0
      else .error (.corruptImage, f.pilLoadPos)
    else .error (.corruptImage, f.pilVerifyPos)
  else if ".pdf".toList.isSuffixOf (f.name.map Char.toLower) then
    if f.content.take 5 = pdfMagic then .ok 0 else .error (.corruptPdf, 0)
  else .ok 0

/-- `validate_prescription_file` (validators.py lines 188-212): the four
checks in order, fail-fast, then a final `file.seek(0)`. -/
def validate_prescription_file (f : UploadedFile) (pos : Nat) : Except (FileErr × Nat) Nat :=
  match validate_file_size f pos with
  | .error e => .error e
  | .ok p1 =>
    match validate_file_extension f p1 with
    | .error e => .error e
    | .ok p2 =>
      match validate_mime_type f p2 with
      | .error e => .error e
      | .ok p3 =>
        match validate_file_integrity f p3 with
        | .error e => .error e
        | .ok _ => .ok 0

/-! ## Path utilities (`apps/prescriptions/utils.py`)

Strings are `List Char` here; the round-trip proofs need structural
reasoning on the separators. -/

/-- Python `s.split(c)` for a single-character separator: always returns at
least one (possibly empty) piece. -/
def splitOnChar (c : Char) : List Char → List (List Char)
  | [] => [[]]
  | x :: xs =>
    if x = c then [] :: splitOnChar c xs
    else
      match splitOnChar c xs with
      | [] => [[x]]
      | h :: t => (x :: h) :: t

/-- Python `c.join(pieces)` for a single-character separator. -/
def joinChar (c : Char) : List (List Char) → List Char
  | [] => []
  | [x] => x
  | x :: y :: t => x ++ c :: joinChar c (y :: t)

/-- Python `os.path.basename` (posix): everything after the last `/`. -/
def pyBasename (p : List Char) : List Char :=
  (splitOnChar '/' p).getLastD []

/-- Python left-to-right non-overlapping `s.replace("..", "")`. -/
def removeDotDot : List Char → List Char
  | '.' :: '.' :: xs => removeDotDot xs
  | x :: xs => x :: removeDotDot xs
  | [] => []

/-- `unicodedata.normalize('NFKD', s).encode('ascii', 'ignore').decode('ascii')`:
the identity on ASCII characters; non-ASCII characters are decomposed and
the non-ASCII residue dropped, modelled here as dropping them. -/
def nfkdAscii (l : List Char) : List Char :=
  l.filter (fun c => c.toNat ≤ 127)

/-- The character class kept by `re.sub(r'[^a-zA-Z0-9_-]', '', name)`. -/
def keepChar (c : Char) : Bool :=
  ('a' ≤ c && c ≤ 'z') || ('A' ≤ c && c ≤ 'Z') || ('0' ≤ c && c ≤ '9')
    || c = '_' || c = '-'

/-- Python slice `l[:i]` with a possibly negative bound. -/
def pyTakeTo (l : List Char) (i : Int) : List Char :=
  if 0 ≤ i then l.take i.toNat
  else l.take ((l.length : Int) + i).toNat

/-- `sanitize_filename` (utils.py lines 17-89). -/
def sanitize_filename (filename : List Char) : List Char :=
  if filename = [] then "file".toList
  else if filename.headD ' ' = '.' && filename.count '.' = 1 then
    "file".toList ++ filename
  else
    let ne := pySplitext filename
    let name0 := ne.1
    let ext0 := ne.2
    let name1 := ((removeDotDot name0).filter (· ≠ '/')).filter (· ≠ '\\')
    let ext1 := ((removeDotDot ext0).filter (· ≠ '/')).filter (· ≠ '\\')
    let name2 := nfkdAscii name1
    let name3 := name2.map (fun c => if c = ' ' then '_' else c)
    let name4 := name3.filter keepChar
    let name5 := if name4 = [] then "file".toList else name4
    let name6 := name5.take 50
    let ext2 := if ext1 ≠ [] && ext1.headD ' ' ≠ '.' then '.' :: ext1 else ext1
    let ext3 := ext2.map Char.toLower
    let sanitized := name6 ++ ext3
    if sanitized.length > 100 then
      pyTakeTo name6 (100 - (ext3.length : Int)) ++ ext3
    else sanitized

/-- Decimal digit characters; indices ≥ 10 never occur. -/
def digitChar (d : Nat) : Char :=
  ['0', '1', '2', '3', '4', '5', '6', '7', '8', '9'].getD d '0'

/-- Fuel-indexed decimal rendering; `fuel` bounds the recursion depth and
always suffices at `n + 1`. -/
def natDigitsAux : Nat → Nat → List Char
  | 0, _ => []
  | fuel + 1, n =>
    if n < 10 then [digitChar n]
    else natDigitsAux fuel (n / 10) ++ [digitChar (n % 10)]

/-- Decimal rendering of a natural number (what Python string formatting
produces for a non-negative int). -/
def natDigits (n : Nat) : List Char := natDigitsAux (n + 1) n

/-- Zero-pad a digit string on the left to width `w`. -/
def padZero (w : Nat) (l : List Char) : List Char :=
  List.replicate (w - l.length) '0' ++ l

/-- The character class of `uuid4().hex`: lower-case hexadecimal digits
(upper case included for generality). -/
def isHexDigitChar (c : Char) : Bool :=
  c.isDigit || ('a' ≤ c && c ≤ 'f') || ('A' ≤ c && c ≤ 'F')

/-- A wall-clock instant as read by `timezone.now()`, to the second. -/
structure PyTime where
  year : Nat
  month : Nat
  day : Nat
  hour : Nat
  minute : Nat
  second : Nat
deriving DecidableEq, Repr

/-- The `%Y%m%d` date half of `now.strftime("%Y%m%d_%H%M%S")`. -/
def datePart (t : PyTime) : List Char :=
  padZero 4 (natDigits t.year) ++ padZero 2 (natDigits t.month)
    ++ padZero 2 (natDigits t.day)

/-- The `%H%M%S` time half of `now.strftime("%Y%m%d_%H%M%S")`. -/
def timePart (t : PyTime) : List Char :=
  padZero 2 (natDigits t.hour) ++ padZero 2 (natDigits t.minute)
    ++ padZero 2 (natDigits t.second)

/-- `f"prescriptions/{user_id}/{timestamp}_{unique_id}_"`: everything of
the generated path that precedes the sanitized filename.  `token` models
`str(uuid.uuid4().hex)[:8]`. -/
def pathHead (userId : Nat) (t : PyTime) (token : List Char) : List Char :=
  "prescriptions/".toList ++ natDigits userId
    ++ '/' :: (datePart t ++ '_' :: (timePart t ++ '_' :: (token ++ ['_'])))

/-- `generate_prescription_path` (utils.py lines 92-136).  The clock value
and the random token are passed in explicitly; `ValueError` for a negative
user id becomes `Except.error`. -/
def generate_prescription_path (userId : Int) (filename : List Char)
    (t : PyTime) (token : List Char) : Except Unit (List Char) :=
  if userId < 0 then .error ()
  else if (pathHead userId.toNat t token ++ sanitize_filename filename).length > 1024 then
    if 0 < (1024 : Int) - ((pathHead userId.toNat t token).length : Int) then
      .ok (pathHead userId.toNat t token
        ++ (pyTakeTo (sanitize_filename filename)
              (((1024 : Int) - ((pathHead userId.toNat t token).length : Int))
                - (((pySplitext (sanitize_filename filename)).2.length : Int)))
          ++ (pySplitext (sanitize_filename filename)).2))
    else .ok (pathHead userId.toNat t token ++ sanitize_filename filename)
  else .ok (pathHead userId.toNat t token ++ sanitize_filename filename)

/-- `extract_original_filename` (utils.py lines 139-162). -/
def extract_original_filename (path : List Char) : List Char :=
  if 4 ≤ (splitOnChar '_' (pyBasename path)).length then
    joinChar '_' ((splitOnChar '_' (pyBasename path)).drop 3)
  else pyBasename path

/-! ## Theorems -/

/-- C6: for every order item with quantity q ≥ 1 and unit price p ≥ 0.01,
`subtotal` equals q × p exactly as a rational number — the two-place
decimal multiplication loses nothing.  `subtotal` is a derived value: the
`OrderItem` record has no subtotal field. -/
theorem orderItem_subtotal_exact (it : OrderItem) (_hq : 1 ≤ it.quantity)
    (_hp : 1 ≤ it.unit_price.cents) :
    it.subtotal.toRat = (it.quantity : ℚ) * it.unit_price.toRat := by
  simp only [OrderItem.subtotal, Dec2.toRat]
  push_cast
  ring

/-- Witness for C6 at the spec's examples: 3 × 10.33 = 30.99 and
1000 × 999.99 = 999990.00 exactly. -/
theorem orderItem_subtotal_exact_witness :
    (OrderItem.mk 3 ⟨1033⟩).subtotal.toRat = (3 : ℚ) * (Dec2.mk 1033).toRat
      ∧ (OrderItem.mk 3 ⟨1033⟩).subtotal = ⟨3099⟩
      ∧ (OrderItem.mk 1000 ⟨99999⟩).subtotal = ⟨99999000⟩ :=
  ⟨orderItem_subtotal_exact ⟨3, ⟨1033⟩⟩ (by decide) (by decide),
    by decide, by decide⟩

/-- C1: on a persisted order, a status change passes the transition check
exactly along PLACED→CONFIRMED, CONFIRMED→SHIPPED, SHIPPED→DELIVERED; any
other change fails validation with an invalid-transition error carrying
both the old and the new status. -/
theorem order_status_transition (o : Order) (old : OrderStatus)
    (h : old ≠ o.status) :
    ((old, o.status) ∈ [(OrderStatus.placed, OrderStatus.confirmed),
        (OrderStatus.confirmed, OrderStatus.shipped),
        (OrderStatus.shipped, OrderStatus.delivered)] →
      (o.clean (some old)).status = none)
    ∧ ((old, o.status) ∉ [(OrderStatus.placed, OrderStatus.confirmed),
        (OrderStatus.confirmed, OrderStatus.shipped),
        (OrderStatus.shipped, OrderStatus.delivered)] →
      (o.clean (some old)).status = some (.invalidTransition old o.status)
        ∧ o.validOn (some old) = false) := by
  rcases o with ⟨ps, ta, st, tn⟩
  cases old <;> cases st <;>
    simp_all [Order.clean, Order.validOn, OrderCleanErrors.clear,
      orderValidTargets]

/-- Witness for C1: a persisted PLACED order moved to DELIVERED fails with
the invalid-transition error. -/
theorem order_status_transition_witness :
    ((Order.mk (some .verified) 100 .delivered "TRK1").clean
        (some .placed)).status
      = some (.invalidTransition .placed .delivered) :=
  ((order_status_transition ⟨some .verified, 100, .delivered, "TRK1"⟩
    .placed (by decide)).2 (by decide)).1

/-- C2: on a persisted prescription, PENDING→VERIFIED validates (other
field checks passing); PENDING→REJECTED validates exactly when the
rejection reason is non-blank; VERIFIED→PENDING and REJECTED→PENDING
always fail with an invalid-transition error carrying source and target. -/
theorem prescription_status_transitions :
    (∀ p : Prescription, p.imageOk = true →
      (p.status = .verified → pyBlank p.rejection_reason = true →
        p.clean (some .pending_verification) = PrescCleanErrors.clear)
      ∧ (p.status = .rejected →
        (p.clean (some .pending_verification) = PrescCleanErrors.clear
          ↔ pyBlank p.rejection_reason = false)))
    ∧ (∀ p : Prescription, p.status = .pending_verification →
      (p.clean (some .verified)).status
          = some (.invalidTransition .verified .pending_verification)
        ∧ (p.clean (some .rejected)).status
          = some (.invalidTransition .rejected .pending_verification)
        ∧ p.validOn (some .verified) = false
        ∧ p.validOn (some .rejected) = false) := by
  constructor
  · rintro ⟨ip, st, vf, va, rr⟩ himg
    simp only [Prescription.imageOk, Bool.and_eq_true, Bool.not_eq_true',
      decide_eq_true_eq] at himg
    obtain ⟨h1, h2⟩ := himg
    constructor
    · rintro rfl hb
      simp_all [Prescription.clean, PrescCleanErrors.clear]
    · rintro rfl
      cases hb : pyBlank rr <;>
        simp_all [Prescription.clean, PrescCleanErrors.clear]
  · rintro ⟨ip, st, vf, va, rr⟩ hst
    cases hst
    refine ⟨by simp [Prescription.clean], by simp [Prescription.clean], ?_, ?_⟩ <;>
      simp [Prescription.validOn, Prescription.clean, PrescCleanErrors.clear]

/-- Witness for C2: a concrete persisted PENDING prescription verifies, and
a concrete REJECTED one with a blank reason does not validate. -/
theorem prescription_status_transitions_witness :
    (Prescription.mk "p.jpg" .verified (some 1) (some 1) "").clean
        (some .pending_verification) = PrescCleanErrors.clear
      ∧ ¬ ((Prescription.mk "p.jpg" .rejected (some 1) (some 1) " ").clean
        (some .pending_verification) = PrescCleanErrors.clear) := by
  refine ⟨(prescription_status_transitions.1 ⟨"p.jpg", .verified, some 1, some 1, ""⟩
      (by decide)).1 rfl (by decide), ?_⟩
  have h := (prescription_status_transitions.1
      ⟨"p.jpg", .rejected, some 1, some 1, " "⟩ (by decide)).2 rfl
  intro hc
  exact absurd (h.mp hc) (by decide)

/-- C3: an order whose referenced prescription is not VERIFIED fails
validation with the not-verified error on the prescription field, on
create and on update alike; with a VERIFIED prescription and every other
check passing, validation succeeds. -/
theorem order_prescription_verified_rule :
    (∀ (o : Order) (old : Option OrderStatus) (s : PrescriptionStatus),
      o.prescription_status = some s → s ≠ .verified →
      (o.clean old).prescription = some .prescriptionNotVerified
        ∧ o.validOn old = false)
    ∧ (∀ (o : Order) (old : Option OrderStatus),
      o.prescription_status = some .verified →
      (o.clean old).status = none → (o.clean old).tracking_number = none →
      1 ≤ o.total_amount → o.validOn old = true) := by
  constructor
  · rintro ⟨ps, ta, st, tn⟩ old s hps hs
    subst hps
    constructor
    · simp [Order.clean, hs]
    · simp [Order.validOn, Order.clean, hs, OrderCleanErrors.clear]
  · rintro ⟨ps, ta, st, tn⟩ old hps h2 h3 hta
    subst hps
    rcases old with _ | os
    · cases st <;>
        simp_all [Order.validOn, Order.clean, OrderCleanErrors.clear]
    · cases st <;> cases os <;>
        simp_all [Order.validOn, Order.clean, OrderCleanErrors.clear,
          orderValidTargets]

/-- Witness for C3: a PENDING_VERIFICATION prescription blocks the order;
a VERIFIED one lets a fresh PLACED order validate. -/
theorem order_prescription_verified_rule_witness :
    ((Order.mk (some .pending_verification) 100 .placed "").clean
        none).prescription = some .prescriptionNotVerified
      ∧ (Order.mk (some .verified) 100 .placed "").validOn none = true :=
  ⟨(order_prescription_verified_rule.1 ⟨some .pending_verification, 100, .placed, ""⟩
      none .pending_verification rfl (by decide)).1,
    order_prescription_verified_rule.2 ⟨some .verified, 100, .placed, ""⟩
      none rfl (by decide) (by decide) (by decide)⟩

/-- C4: a prescription passing validation has a non-blank rejection reason
iff its status is REJECTED; REJECTED with a blank reason records the
missing-reason error and any other status with a non-blank reason records
the unexpected-reason error, both on the rejection_reason field. -/
theorem prescription_rejection_reason_iff :
    ∀ (p : Prescription) (old : Option PrescriptionStatus),
      (p.status = .rejected → pyBlank p.rejection_reason = true →
        (p.clean old).rejection_reason = some .missingRejectionReason)
      ∧ (p.status ≠ .rejected → pyBlank p.rejection_reason = false →
        (p.clean old).rejection_reason = some .unexpectedRejectionReason)
      ∧ (p.validOn old = true →
        (pyBlank p.rejection_reason = false ↔ p.status = .rejected)) := by
  rintro ⟨ip, st, vf, va, rr⟩ old
  refine ⟨?_, ?_, ?_⟩
  · rintro rfl hb
    simp [Prescription.clean, hb]
  · intro hst hb
    simp [Prescription.clean, hst, hb]
  · intro hv
    simp only [Prescription.validOn, Prescription.clean,
      PrescCleanErrors.clear, decide_eq_true_eq, PrescCleanErrors.mk.injEq] at hv
    obtain ⟨-, h2, -⟩ := hv
    cases hb : pyBlank rr <;> cases hst : st <;> simp_all

/-- Witness for C4: a REJECTED prescription with a whitespace-only reason
records the missing-reason error. -/
theorem prescription_rejection_reason_iff_witness :
    ((Prescription.mk "p.jpg" .rejected none none "  ").clean
        none).rejection_reason = some .missingRejectionReason :=
  (prescription_rejection_reason_iff ⟨"p.jpg", .rejected, none, none, "  "⟩
    none).1 rfl (by decide)

/-- C5: an order in SHIPPED or DELIVERED with a blank tracking number
records the missing-tracking-number error on the tracking_number field,
whatever the persisted predecessor status was — the check is independent
of the transition check — and with a non-blank tracking number and every
other check passing, validation succeeds. -/
theorem order_tracking_number_rule :
    ∀ (o : Order), o.status = .shipped ∨ o.status = .delivered →
      (∀ old, pyBlank o.tracking_number = true →
        (o.clean old).tracking_number = some .missingTrackingNumber
          ∧ o.validOn old = false)
      ∧ (∀ old old', (o.clean old).tracking_number
          = (o.clean old').tracking_number)
      ∧ (∀ old, pyBlank o.tracking_number = false →
        (o.clean old).prescription = none → (o.clean old).status = none →
        1 ≤ o.total_amount → o.validOn old = true) := by
  rintro ⟨ps, ta, st, tn⟩ hst
  refine ⟨?_, ?_, ?_⟩
  · intro old hb
    constructor
    · rcases hst with h | h <;> subst h <;> simp [Order.clean, hb]
    · rcases hst with h | h <;> subst h <;>
        simp [Order.validOn, Order.clean, hb, OrderCleanErrors.clear]
  · intro old old'
    simp [Order.clean]
  · intro old hb h1 h2 hta
    rcases old with _ | os
    · rcases hst with h | h <;> subst h <;> rcases ps with _ | s <;>
        simp_all [Order.validOn, Order.clean, OrderCleanErrors.clear]
    · rcases hst with h | h <;> subst h <;> rcases ps with _ | s <;>
        cases os <;>
        simp_all [Order.validOn, Order.clean, OrderCleanErrors.clear,
          orderValidTargets]

/-- Witness for C5: shipping without a tracking number fails even on the
legal CONFIRMED→SHIPPED edge; with one, the same update validates. -/
theorem order_tracking_number_rule_witness :
    ((Order.mk (some .verified) 100 .shipped "").clean
        (some .confirmed)).tracking_number = some .missingTrackingNumber
      ∧ (Order.mk (some .verified) 100 .shipped "TRK9").validOn
        (some .confirmed) = true :=
  ⟨((order_tracking_number_rule ⟨some .verified, 100, .shipped, ""⟩
      (Or.inl rfl)).1 (some .confirmed) (by decide)).1,
    (order_tracking_number_rule ⟨some .verified, 100, .shipped, "TRK9"⟩
      (Or.inl rfl)).2.2 (some .confirmed) (by decide) (by decide) (by decide)
      (by decide)⟩

/-- C9 counterexample: a persisted PENDING prescription moved to VERIFIED
with `verifier = None` and `verified_at = None` passes validation —
`Prescription.clean` never requires them (the model's own test
`test_prescription_without_verifier_but_verified_status` relies on this). -/
theorem prescription_verifier_not_required :
    (Prescription.mk "p.jpg" .verified none none "").verifier = none
      ∧ (Prescription.mk "p.jpg" .verified none none "").verified_at = none
      ∧ (Prescription.mk "p.jpg" .verified none none "").validOn
        (some .pending_verification) = true := by
  refine ⟨rfl, rfl, by decide⟩

/-- C9 amended: the PENDING→VERIFIED transition passes validation whenever
the image-path and rejection-reason checks pass, with no condition at all
on `verifier` or `verified_at`. -/
theorem prescription_verify_ignores_verifier :
    ∀ p : Prescription, p.status = .verified → p.imageOk = true →
      pyBlank p.rejection_reason = true →
      p.clean (some .pending_verification) = PrescCleanErrors.clear := by
  rintro ⟨ip, st, vf, va, rr⟩ hst himg hb
  subst hst
  simp only [Prescription.imageOk, Bool.and_eq_true, Bool.not_eq_true',
    decide_eq_true_eq] at himg
  obtain ⟨h1, h2⟩ := himg
  simp_all [Prescription.clean, PrescCleanErrors.clear]

/-- Witness for the amended C9: verified with a verifier present also
passes, as does the bare record of the counterexample shape. -/
theorem prescription_verify_ignores_verifier_witness :
    (Prescription.mk "scan.png" .verified (some 42) (some 7) "").clean
        (some .pending_verification) = PrescCleanErrors.clear :=
  prescription_verify_ignores_verifier ⟨"scan.png", .verified, some 42, some 7, ""⟩
    rfl (by decide) (by decide)

/-- C7: when the sniffed content type is in the allow-list but differs
from the type the (lower-cased) filename extension maps to, MIME
validation fails with the spoofing error; a sniffed type outside the
allow-list fails with the disallowed-type error instead.  Both exits
leave the stream at 0. -/
theorem mime_spoofing_rule :
    ∀ (f : UploadedFile) (pos : Nat) (mime : List Char),
      f.sniffedMime = some mime →
      (mime ∈ allowedMimeTypes →
        ∀ expected, extensionMimeMap (pyExtOf (f.name.map Char.toLower))
            = some expected →
          mime ≠ expected →
          validate_mime_type f pos = .error (.mimeTypeSpoofing, 0))
      ∧ (mime ∉ allowedMimeTypes →
          validate_mime_type f pos = .error (.disallowedMimeType, 0)) := by
  intro f pos mime h
  constructor
  · intro hmem expected hmap hne
    simp [validate_mime_type, h, hmem, hmap, hne]
  · intro hnot
    simp [validate_mime_type, h, hnot]

/-- Witness for C7: JPEG bytes behind a `.pdf` name are flagged as
spoofing; a sniffed `text/plain` fails as a disallowed type. -/
theorem mime_spoofing_rule_witness :
    validate_mime_type
        ⟨"scan.pdf".toList, [0xFF, 0xD8, 0xFF], some "image/jpeg".toList,
          true, 0, true, 0⟩ 0
      = .error (.mimeTypeSpoofing, 0)
    ∧ validate_mime_type
        ⟨"notes.pdf".toList, [0x68, 0x69], some "text/plain".toList,
          true, 0, true, 0⟩ 0
      = .error (.disallowedMimeType, 0) :=
  ⟨(mime_spoofing_rule
      ⟨"scan.pdf".toList, [0xFF, 0xD8, 0xFF], some "image/jpeg".toList,
        true, 0, true, 0⟩ 0 "image/jpeg".toList rfl).1
      (by decide) "application/pdf".toList (by decide) (by decide),
    (mime_spoofing_rule
      ⟨"notes.pdf".toList, [0x68, 0x69], some "text/plain".toList,
        true, 0, true, 0⟩ 0 "text/plain".toList rfl).2 (by decide)⟩

/-- C8 counterexample: a `.jpg` upload whose bytes sniff as `image/jpeg`
but fail PIL decoding makes the pipeline raise from inside the image
integrity check with the stream left at the decoder's position (3 here),
not at zero — the exception path has no `seek(0)`. -/
theorem pipeline_stream_reset_counterexample :
    validate_prescription_file
        ⟨"a.jpg".toList, [1, 2, 3], some "image/jpeg".toList,
          false, 3, true, 0⟩ 0
      = .error (.corruptImage, 3) ∧ (3 : Nat) ≠ 0 :=
  ⟨rfl, by decide⟩

/-- Exit positions of `validate_file_size`: no stream movement. -/
theorem validate_file_size_exit (f : UploadedFile) (pos : Nat) :
    validate_file_size f pos = .ok pos
      ∨ ∃ e, validate_file_size f pos = .error (e, pos) := by
  unfold validate_file_size
  split
  · exact Or.inr ⟨_, rfl⟩
  split
  · exact Or.inr ⟨_, rfl⟩
  · exact Or.inl rfl

/-- Exit positions of `validate_file_extension`: no stream movement. -/
theorem validate_file_extension_exit (f : UploadedFile) (pos : Nat) :
    validate_file_extension f pos = .ok pos
      ∨ ∃ e, validate_file_extension f pos = .error (e, pos) := by
  unfold validate_file_extension
  split
  · exact Or.inr ⟨_, rfl⟩
  split
  · exact Or.inr ⟨_, rfl⟩
  split
  · exact Or.inr ⟨_, rfl⟩
  · exact Or.inl rfl

/-- Exit positions of `validate_mime_type`: every exit re-seeks to 0. -/
theorem validate_mime_type_exit (f : UploadedFile) (pos : Nat) :
    validate_mime_type f pos = .ok 0
      ∨ ∃ e, validate_mime_type f pos = .error (e, 0) := by
  unfold validate_mime_type
  rcases hm : f.sniffedMime with _ | m
  all_goals simp only [hm]
  · exact Or.inr ⟨_, rfl⟩
  · split
    · exact Or.inr ⟨_, rfl⟩
    split
    · split
      · exact Or.inr ⟨_, rfl⟩
      · exact Or.inl rfl
    · exact Or.inl rfl

/-- Exit positions of `validate_file_integrity`: 0 everywhere except the
corrupt-image raise, which is wherever PIL stopped. -/
theorem validate_file_integrity_exit (f : UploadedFile) (pos : Nat) :
    validate_file_integrity f pos = .ok 0
      ∨ (∃ q, validate_file_integrity f pos = .error (.corruptImage, q))
      ∨ validate_file_integrity f pos = .error (.corruptPdf, 0) := by
  unfold validate_file_integrity
  split
  · split
    · split
      · exact Or.inl rfl
      · exact Or.inr (Or.inl ⟨_, rfl⟩)
    · exact Or.inr (Or.inl ⟨_, rfl⟩)
  split
  · split
    · exact Or.inl rfl
    · exact Or.inr (Or.inr rfl)
  · exact Or.inl rfl

/-- C8 amended: starting from position 0, the pipeline leaves the stream
at position 0 on the success exit and on every failure exit except a
failing image-integrity check, whose exception propagates from inside the
decoder with no reset. -/
theorem pipeline_stream_positions (f : UploadedFile) :
    (∀ p, validate_prescription_file f 0 = .ok p → p = 0)
    ∧ (∀ e p, validate_prescription_file f 0 = .error (e, p) →
        p = 0 ∨ e = .corruptImage) := by
  unfold validate_prescription_file
  rcases validate_file_size_exit f 0 with h1 | ⟨e1, h1⟩
  · simp only [h1]
    rcases validate_file_extension_exit f 0 with h2 | ⟨e2, h2⟩
    · simp only [h2]
      rcases validate_mime_type_exit f 0 with h3 | ⟨e3, h3⟩
      · simp only [h3]
        rcases validate_file_integrity_exit f 0 with h4 | ⟨q, h4⟩ | h4
        · simp only [h4]
          refine ⟨fun p hp => ?_, fun e p hp => ?_⟩
          · simp only [Except.ok.injEq] at hp
            exact hp.symm
          · simp at hp
        · simp only [h4]
          refine ⟨fun p hp => ?_, fun e p hp => ?_⟩
          · simp at hp
          · simp only [Except.error.injEq, Prod.mk.injEq] at hp
            exact Or.inr hp.1.symm
        · simp only [h4]
          refine ⟨fun p hp => ?_, fun e p hp => ?_⟩
          · simp at hp
          · simp only [Except.error.injEq, Prod.mk.injEq] at hp
            exact Or.inl hp.2.symm
      · simp only [h3]
        refine ⟨fun p hp => ?_, fun e p hp => ?_⟩
        · simp at hp
        · simp only [Except.error.injEq, Prod.mk.injEq] at hp
          exact Or.inl hp.2.symm
    · simp only [h2]
      refine ⟨fun p hp => ?_, fun e p hp => ?_⟩
      · simp at hp
      · simp only [Except.error.injEq, Prod.mk.injEq] at hp
        exact Or.inl hp.2.symm
  · simp only [h1]
    refine ⟨fun p hp => ?_, fun e p hp => ?_⟩
    · simp at hp
    · simp only [Except.error.injEq, Prod.mk.injEq] at hp
      exact Or.inl hp.2.symm

/-- Witness for the amended C8: a corrupt PDF (bad magic header) fails
with the stream back at 0, as the theorem requires. -/
theorem pipeline_stream_positions_witness :
    validate_prescription_file
        ⟨"doc.pdf".toList, [1, 2, 3], some "application/pdf".toList,
          true, 0, true, 0⟩ 0
      = .error (.corruptPdf, 0)
    ∧ ((0 : Nat) = 0 ∨ FileErr.corruptPdf = .corruptImage) :=
  ⟨rfl,
    (pipeline_stream_positions
      ⟨"doc.pdf".toList, [1, 2, 3], some "application/pdf".toList,
        true, 0, true, 0⟩).2 .corruptPdf 0 rfl⟩

/-- `splitOnChar` always yields at least one piece. -/
theorem splitOnChar_ne_nil (c : Char) (l : List Char) : splitOnChar c l ≠ [] := by
  cases l with
  | nil => simp [splitOnChar]
  | cons x xs =>
    simp only [splitOnChar]
    split
    · simp
    · split <;> simp

/-- Splitting a string free of the separator yields the single piece. -/
theorem splitOnChar_of_not_mem (c : Char) (l : List Char) (h : c ∉ l) :
    splitOnChar c l = [l] := by
  induction l with
  | nil => rfl
  | cons x xs ih =>
    simp only [List.mem_cons, not_or] at h
    obtain ⟨hx, hxs⟩ := h
    simp only [splitOnChar]
    rw [if_neg (fun e => hx e.symm), ih hxs]

/-- Unfolding: splitting at a leading separator. -/
theorem splitOnChar_cons_self (c : Char) (xs : List Char) :
    splitOnChar c (c :: xs) = [] :: splitOnChar c xs := by
  simp [splitOnChar]

/-- Unfolding: a non-separator head joins the first piece. -/
theorem splitOnChar_cons_of_ne (c x : Char) (xs : List Char) (hx : ¬ x = c)
    (h : List Char) (t : List (List Char)) (hr : splitOnChar c xs = h :: t) :
    splitOnChar c (x :: xs) = (x :: h) :: t := by
  simp only [splitOnChar, if_neg hx, hr]

/-- The number of pieces is the separator count plus one. -/
theorem splitOnChar_length (c : Char) (l : List Char) :
    (splitOnChar c l).length = l.count c + 1 := by
  induction l with
  | nil => simp [splitOnChar]
  | cons x xs ih =>
    by_cases hx : x = c
    · subst hx
      rw [splitOnChar_cons_self]
      simp [List.count_cons, ih]
    · cases hr : splitOnChar c xs with
      | nil => exact absurd hr (splitOnChar_ne_nil c xs)
      | cons h t =>
        rw [splitOnChar_cons_of_ne c x xs hx h t hr]
        rw [hr] at ih
        simp only [List.length_cons] at ih ⊢
        have hcnt : (x :: xs).count c = xs.count c :=
          List.count_cons_of_ne (fun e => hx e.symm) xs
        omega

/-- `c.join(s.split(c)) == s`. -/
theorem joinChar_splitOnChar (c : Char) (l : List Char) :
    joinChar c (splitOnChar c l) = l := by
  induction l with
  | nil => rfl
  | cons x xs ih =>
    by_cases hx : x = c
    · subst hx
      rw [splitOnChar_cons_self]
      cases hr : splitOnChar x xs with
      | nil => exact absurd hr (splitOnChar_ne_nil x xs)
      | cons h t =>
        rw [hr] at ih
        simp only [joinChar, List.nil_append]
        rw [ih]
    · cases hr : splitOnChar c xs with
      | nil => exact absurd hr (splitOnChar_ne_nil c xs)
      | cons h t =>
        rw [splitOnChar_cons_of_ne c x xs hx h t hr]
        rw [hr] at ih
        cases t with
        | nil =>
          simp only [joinChar] at ih ⊢
          rw [ih]
        | cons y t' =>
          simp only [joinChar] at ih ⊢
          rw [List.cons_append, ih]

/-- Splitting at the first separator occurrence peels off the head piece. -/
theorem splitOnChar_append_cons (c : Char) (a b : List Char) (ha : c ∉ a) :
    splitOnChar c (a ++ c :: b) = a :: splitOnChar c b := by
  induction a with
  | nil => simp [splitOnChar]
  | cons x a' ih =>
    simp only [List.mem_cons, not_or] at ha
    obtain ⟨hx, ha'⟩ := ha
    rw [List.cons_append]
    cases hr : splitOnChar c b with
    | nil => exact absurd hr (splitOnChar_ne_nil c b)
    | cons h t =>
      rw [hr] at ih
      rw [splitOnChar_cons_of_ne c x (a' ++ c :: b) (fun e => hx e.symm)
        a' (h :: t) (ih ha')]

/-- The last piece of a split at the final separator is the suffix. -/
theorem getLast?_splitOnChar (c : Char) (b : List Char) (hb : c ∉ b) :
    ∀ a : List Char, (splitOnChar c (a ++ c :: b)).getLast? = some b := by
  intro a
  induction a with
  | nil =>
    rw [List.nil_append, splitOnChar_cons_self,
      splitOnChar_of_not_mem c b hb]
    rfl
  | cons x a' ih =>
    by_cases hx : x = c
    · subst hx
      rw [List.cons_append, splitOnChar_cons_self]
      cases hr : splitOnChar x (a' ++ x :: b) with
      | nil => exact absurd hr (splitOnChar_ne_nil _ _)
      | cons h t =>
        rw [hr] at ih
        rw [List.getLast?_cons_cons]
        exact ih
    · rw [List.cons_append]
      cases hr : splitOnChar c (a' ++ c :: b) with
      | nil => exact absurd hr (splitOnChar_ne_nil _ _)
      | cons h t =>
        rw [splitOnChar_cons_of_ne c x (a' ++ c :: b) hx h t hr]
        rw [hr] at ih
        have hlen : (h :: t).length = (a' ++ c :: b).count c + 1 := by
          rw [← hr]; exact splitOnChar_length _ _
        have hcmem : c ∈ a' ++ c :: b :=
          List.mem_append.2 (Or.inr (List.mem_cons_self c b))
        cases t with
        | nil =>
          have h0 : (a' ++ c :: b).count c = 0 := by
            simp only [List.length_cons, List.length_nil] at hlen
            omega
          exact absurd hcmem (List.count_eq_zero.1 h0)
        | cons y t' =>
          rw [List.getLast?_cons_cons]
          rw [List.getLast?_cons_cons] at ih
          exact ih

/-- `os.path.basename` of a path whose final component has no slash. -/
theorem pyBasename_append (a b : List Char) (hb : '/' ∉ b) :
    pyBasename (a ++ '/' :: b) = b := by
  unfold pyBasename
  rw [List.getLastD_eq_getLast?, getLast?_splitOnChar '/' b hb a]
  rfl

/-- Digit characters are never the underscore or slash separators. -/
theorem digitChar_ne (d : Nat) : digitChar d ≠ '_' ∧ digitChar d ≠ '/' := by
  rcases d with _|_|_|_|_|_|_|_|_|_|d <;>
    first
      | decide
      | · have h0 : digitChar (d + 10) = '0' := by
            simp [digitChar, List.getD]
          rw [h0]; decide

/-- All characters produced by `natDigitsAux` are digits, hence never the
separators. -/
theorem natDigitsAux_ne (fuel : Nat) :
    ∀ (n : Nat), ∀ c ∈ natDigitsAux fuel n, c ≠ '_' ∧ c ≠ '/' := by
  induction fuel with
  | zero => intro n c hc; simp [natDigitsAux] at hc
  | succ fuel ih =>
    intro n c hc
    simp only [natDigitsAux] at hc
    split at hc
    · simp only [List.mem_singleton] at hc
      subst hc; exact digitChar_ne n
    · rcases List.mem_append.1 hc with h | h
      · exact ih (n / 10) c h
      · simp only [List.mem_singleton] at h
        subst h; exact digitChar_ne (n % 10)

/-- The decimal rendering of a natural never contains `_` or `/`. -/
theorem natDigits_ne (n : Nat) : ∀ c ∈ natDigits n, c ≠ '_' ∧ c ≠ '/' :=
  natDigitsAux_ne (n + 1) n

/-- Zero padding preserves separator-freeness. -/
theorem padZero_ne (w : Nat) (l : List Char)
    (hl : ∀ c ∈ l, c ≠ '_' ∧ c ≠ '/') :
    ∀ c ∈ padZero w l, c ≠ '_' ∧ c ≠ '/' := by
  intro c hc
  rcases List.mem_append.1 hc with h | h
  · rw [List.eq_of_mem_replicate h]; decide
  · exact hl c h

/-- The `%Y%m%d` date half contains neither `_` nor `/`. -/
theorem datePart_ne (t : PyTime) : ∀ c ∈ datePart t, c ≠ '_' ∧ c ≠ '/' := by
  intro c hc
  rcases List.mem_append.1 hc with h | h
  · rcases List.mem_append.1 h with h' | h'
    · exact padZero_ne _ _ (natDigits_ne _) c h'
    · exact padZero_ne _ _ (natDigits_ne _) c h'
  · exact padZero_ne _ _ (natDigits_ne _) c h

/-- The `%H%M%S` time half contains neither `_` nor `/`. -/
theorem timePart_ne (t : PyTime) : ∀ c ∈ timePart t, c ≠ '_' ∧ c ≠ '/' := by
  intro c hc
  rcases List.mem_append.1 hc with h | h
  · rcases List.mem_append.1 h with h' | h'
    · exact padZero_ne _ _ (natDigits_ne _) c h'
    · exact padZero_ne _ _ (natDigits_ne _) c h'
  · exact padZero_ne _ _ (natDigits_ne _) c h

/-- Hex digits (as in `uuid4().hex`) are never `_` or `/`. -/
theorem hexDigit_ne (c : Char) (h : isHexDigitChar c = true) :
    c ≠ '_' ∧ c ≠ '/' := by
  constructor <;> rintro rfl <;> exact absurd h (by decide)

/-- C10 counterexample: for `".a/b"` the early branch of
`sanitize_filename` (dot-leading name with a single dot) returns
`"file.a/b"` without stripping the slash, so the stored path gains an
extra path segment and `extract_original_filename` recovers only `"b"`,
not the sanitized filename — the round trip fails even though the path is
well under 1024 characters. -/
theorem generate_extract_roundtrip_counterexample :
    generate_prescription_path 0 ".a/b".toList ⟨2025, 12, 20, 18, 30, 0⟩
        "a1b2c3d4".toList
      = .ok "prescriptions/0/20251220_183000_a1b2c3d4_file.a/b".toList
    ∧ ("prescriptions/0/20251220_183000_a1b2c3d4_file.a/b".toList).length ≤ 1024
    ∧ sanitize_filename ".a/b".toList = "file.a/b".toList
    ∧ extract_original_filename
        "prescriptions/0/20251220_183000_a1b2c3d4_file.a/b".toList
      = "b".toList
    ∧ "b".toList ≠ "file.a/b".toList :=
  ⟨rfl, by decide, rfl, rfl, by decide⟩

/-- C10 amended: for every non-negative owner id, every hex random token,
every clock time, and every filename whose sanitized form contains no
slash, when the generated path fits in 1024 characters the generator
returns it untruncated and extracting the original filename from it gives
back exactly the sanitized filename. -/
theorem generate_extract_roundtrip (userId : Int) (filename token : List Char)
    (t : PyTime)
    (hu : 0 ≤ userId)
    (htok : ∀ c ∈ token, isHexDigitChar c = true)
    (hs : '/' ∉ sanitize_filename filename)
    (hlen : (pathHead userId.toNat t token
        ++ sanitize_filename filename).length ≤ 1024) :
    generate_prescription_path userId filename t token
        = .ok (pathHead userId.toNat t token ++ sanitize_filename filename)
      ∧ extract_original_filename
          (pathHead userId.toNat t token ++ sanitize_filename filename)
        = sanitize_filename filename := by
  constructor
  · unfold generate_prescription_path
    rw [if_neg (by omega), if_neg (by omega)]
  · have hDu : '_' ∉ datePart t := fun h => (datePart_ne t _ h).1 rfl
    have hTu : '_' ∉ timePart t := fun h => (timePart_ne t _ h).1 rfl
    have htoku : '_' ∉ token := fun h => (hexDigit_ne _ (htok _ h)).1 rfl
    have hB : '/' ∉ datePart t ++ '_' :: (timePart t ++ '_'
        :: (token ++ '_' :: sanitize_filename filename)) := by
      intro h
      rcases List.mem_append.1 h with h | h
      · exact (datePart_ne t _ h).2 rfl
      rcases List.mem_cons.1 h with h | h
      · exact absurd h (by decide)
      rcases List.mem_append.1 h with h | h
      · exact (timePart_ne t _ h).2 rfl
      rcases List.mem_cons.1 h with h | h
      · exact absurd h (by decide)
      rcases List.mem_append.1 h with h | h
      · exact (hexDigit_ne _ (htok _ h)).2 rfl
      rcases List.mem_cons.1 h with h | h
      · exact absurd h (by decide)
      · exact hs h
    have hpath : pathHead userId.toNat t token ++ sanitize_filename filename
        = ("prescriptions/".toList ++ natDigits userId.toNat)
          ++ '/' :: (datePart t ++ '_' :: (timePart t ++ '_'
            :: (token ++ '_' :: sanitize_filename filename))) := by
      simp [pathHead, List.append_assoc]
    rw [hpath]
    unfold extract_original_filename
    rw [pyBasename_append _ _ hB]
    rw [splitOnChar_append_cons '_' (datePart t) _ hDu,
      splitOnChar_append_cons '_' (timePart t) _ hTu,
      splitOnChar_append_cons '_' token _ htoku]
    have h4 : 4 ≤ (datePart t :: timePart t :: token
        :: splitOnChar '_' (sanitize_filename filename)).length := by
      have h1 : 0 < (splitOnChar '_' (sanitize_filename filename)).length :=
        List.length_pos.2 (splitOnChar_ne_nil _ _)
      simp only [List.length_cons]
      omega
    rw [if_pos h4]
    simp only [List.drop_succ_cons, List.drop_zero]
    exact joinChar_splitOnChar '_' (sanitize_filename filename)

/-- Witness for the amended C10 at the spec's own example
`generate_path(owner_id=123, filename="my file.jpg")`. -/
theorem generate_extract_roundtrip_witness :
    generate_prescription_path 123 "my file.jpg".toList
        ⟨2025, 12, 20, 18, 30, 0⟩ "a1b2c3d4".toList
      = .ok (pathHead 123 ⟨2025, 12, 20, 18, 30, 0⟩ "a1b2c3d4".toList
          ++ "my_file.jpg".toList)
    ∧ extract_original_filename
        (pathHead 123 ⟨2025, 12, 20, 18, 30, 0⟩ "a1b2c3d4".toList
          ++ "my_file.jpg".toList)
      = "my_file.jpg".toList := by
  have h := generate_extract_roundtrip 123 "my file.jpg".toList
    "a1b2c3d4".toList ⟨2025, 12, 20, 18, 30, 0⟩
    (by decide) (by decide) (by decide) (by decide)
  have hs : sanitize_filename "my file.jpg".toList = "my_file.jpg".toList := rfl
  rw [hs] at h
  exact h
